import Mathlib

/-!
Verification of the AI-Paper-Trends pipeline (main.py, src/get_papers.py,
src/run_topic_modeling.py, src/analyze.py) against its specification.

The Python source is shallowly embedded: pure path/string computations become
Lean functions on `String`; the orchestrator `main` becomes a total function
from the force-rerun flag, the config, an abstract filesystem (the list of
existing paths) and the abstract results of the two fallible stage bodies to a
`Trace` recording which stage bodies were invoked and how the process
terminated.  Machine floats only appear in the average-rating computation,
which is modelled exactly over `ℚ` (the ratings are integers and the mean of a
short integer list is exact in double precision for the magnitudes involved).
-/

/-! ## String helpers

Python's single-character `str.replace` is a character map (when the
replacement is one character) or a character filter (when the replacement is
the empty string); `str.lower` maps `Char.toLower` over the characters; the
`in` substring test is an explicit scan. -/

/-- Boolean test: does `hay` start with `needle` (character lists)? -/
def startsWithChars : List Char → List Char → Bool
  | _, [] => true
  | [], _ :: _ => false
  | a :: as, b :: bs => a == b && startsWithChars as bs

/-- Boolean test: does `needle` occur as a contiguous substring of `hay`? -/
def hasSubChars : List Char → List Char → Bool
  | [], needle => needle.isEmpty
  | a :: as, needle => startsWithChars (a :: as) needle || hasSubChars as needle

/-- Python's `needle in hay` substring test on strings. -/
def containsSub (hay needle : String) : Bool :=
  hasSubChars hay.toList needle.toList

/-- Python's `str.lower()` (the inputs of interest are ASCII). -/
def lowerStr (s : String) : String :=
  String.mk (s.toList.map Char.toLower)

/-! ## Configuration

`RunConfig` models the YAML config fields the pipeline reads:
`conference_id`, `limit` (`none` when the key is absent; Python's `if limit`
truthiness makes `0` behave like absent), `fetch_reviews`, and the two
`enabled` flags.  `output_folder_name` only affects the results directory,
which no claim touches. -/

structure RunConfig where
  conference_id : String
  limit : Option Int
  fetch_reviews : Bool
  topic_modeling_enabled : Bool
  analysis_enabled : Bool
deriving DecidableEq

/-- Python truthiness of the `limit` field (`None` and `0` are falsy). -/
def limitTruthy : Option Int → Bool
  | none => false
  | some n => !(n == 0)

/-! ## PathPlanner (`main.py`, `get_expected_filepaths`)

`conf_id = config['conference_id'].replace('/', '_').replace('.', '')`,
then `{conf_id}_papers{suffix}{limit_suffix}.jsonl` with
`suffix = "_reviews" if fetch_reviews else ""` and
`limit_suffix = f"_limit{limit}" if limit else ""`. -/

/-- Raw filename computed by `get_expected_filepaths` in `main.py`. -/
def get_expected_raw_filename (config : RunConfig) : String :=
  let conf_id := String.mk
    ((config.conference_id.toList.map fun c => if c == '/' then '_' else c).filter
      fun c => !(c == '.'))
  let suffix := if config.fetch_reviews then "_reviews" else ""
  let limit_suffix :=
    if limitTruthy config.limit then "_limit" ++ toString (config.limit.getD 0) else ""
  conf_id ++ "_papers" ++ suffix ++ limit_suffix ++ ".jsonl"

/-- Processed filename `f"{raw_path.stem}_with_topics.csv"`: the raw filename
always ends in `.jsonl` and its stem contains no dot (sanitisation deletes
every `.`), so `Path.stem` is exactly the part before `.jsonl`. -/
def get_expected_processed_filename (config : RunConfig) : String :=
  let conf_id := String.mk
    ((config.conference_id.toList.map fun c => if c == '/' then '_' else c).filter
      fun c => !(c == '.'))
  let suffix := if config.fetch_reviews then "_reviews" else ""
  let limit_suffix :=
    if limitTruthy config.limit then "_limit" ++ toString (config.limit.getD 0) else ""
  conf_id ++ "_papers" ++ suffix ++ limit_suffix ++ "_with_topics.csv"

/-- `main.py` joins the raw filename onto `data/raw`. -/
def expected_raw_path (config : RunConfig) : String :=
  "data/raw/" ++ get_expected_raw_filename config

/-- `main.py` joins the processed filename onto `data/processed`. -/
def expected_processed_path (config : RunConfig) : String :=
  "data/processed/" ++ get_expected_processed_filename config

/-- The C1 scenario config. -/
def c1Config : RunConfig :=
  { conference_id := "ICLR.cc/2024/Conference"
    limit := some 50
    fetch_reviews := true
    topic_modeling_enabled := false
    analysis_enabled := false }

example :
    get_expected_raw_filename c1Config =
      "ICLRcc_2024_Conference_papers_reviews_limit50.jsonl" := by decide

/-! ## Fetcher (`src/get_papers.py`)

The OpenReview client is the external boundary: each retrieval strategy is
modelled as `Except Unit (List Paper)` — `Except.error ()` when the `try`
block raises, `Except.ok papers` when it returns a (possibly empty) list.
A `Paper` only needs an identity here; its content fields do not influence
control flow. -/

structure Paper where
  id : String
deriving DecidableEq

/-- Papers a strategy's `try` block contributes: the extracted list on
success, nothing when the exception is caught. -/
def strategy_papers : Except Unit (List Paper) → List Paper
  | Except.ok ps => ps
  | Except.error _ => []

/-- `get_all_papers`: try the invitation-id query; return its papers if
non-empty; otherwise fall back to the venue-id query; return its papers if
non-empty; otherwise return `[]`. -/
def get_all_papers (invitationResult venueResult : Except Unit (List Paper)) :
    List Paper :=
  let papersInv := strategy_papers invitationResult
  if !papersInv.isEmpty then papersInv
  else
    let papersVen := strategy_papers venueResult
    if !papersVen.isEmpty then papersVen
    else []

/-- Raw filename computed independently inside `get_papers.main`
(`safe_conf_name = conference_id.replace('/', '_').replace('.', '')`, same
suffix logic as the planner). -/
def fetcher_output_filename (config : RunConfig) : String :=
  let safe_conf_name := String.mk
    ((config.conference_id.toList.map fun c => if c == '/' then '_' else c).filter
      fun c => !(c == '.'))
  let suffix := if config.fetch_reviews then "_reviews" else ""
  let limit_suffix :=
    if limitTruthy config.limit then "_limit" ++ toString (config.limit.getD 0) else ""
  safe_conf_name ++ "_papers" ++ suffix ++ limit_suffix ++ ".jsonl"

/-- `get_papers.main`: returns `none` (Python `None`) when no strategy
produced papers, else writes the JSONL file and returns its path.  The
orchestrator passes `raw_data_dir = Path("data/raw")`. -/
def get_papers_main (config : RunConfig)
    (invitationResult venueResult : Except Unit (List Paper)) : Option String :=
  let submissions_data := get_all_papers invitationResult venueResult
  if submissions_data.isEmpty then none
  else some ("data/raw/" ++ fetcher_output_filename config)

/-! ## Orchestrator (`main.py`, `main`)

The filesystem is the list of existing paths.  The two fallible stage bodies
are abstracted by their returned value (`none` = Python `None` = failure;
`some p` = success, creating the file `p`).  `Trace` records, for one run of
`main`, whether each stage body was invoked and how the process terminated;
every exit is a plain `return` after a printed message, so the function is
total — no exception escapes the model, mirroring the source where every
anticipated failure path ends in `print` + `return`. -/

inductive PipelineExit where
  | fetchFailed
  | topicInputMissing
  | topicFailed
  | completed
deriving DecidableEq

structure Trace where
  fetchInvoked : Bool
  topicInvoked : Bool
  analyzeInvoked : Bool
  termination : PipelineExit
deriving DecidableEq

/-- Step 3 of `main`: analysis runs iff enabled and the processed file
exists; a missing processed file only skips this stage (the run still
reaches the final success message). -/
def runAnalyzeStage (config : RunConfig) (fs : List String)
    (fetchInvoked topicInvoked : Bool) : Trace :=
  { fetchInvoked := fetchInvoked
    topicInvoked := topicInvoked
    analyzeInvoked := config.analysis_enabled && fs.contains (expected_processed_path config)
    termination := PipelineExit.completed }

/-- Step 2 of `main`: topic modeling with its cache check, its fresh
existence check on the raw input, and abort on stage failure. -/
def runTopicStage (force_rerun : Bool) (config : RunConfig) (fs : List String)
    (fetchInvoked : Bool) (topicResult : Option String) : Trace :=
  if config.topic_modeling_enabled then
    if !force_rerun && fs.contains (expected_processed_path config) then
      runAnalyzeStage config fs fetchInvoked false
    else if !(fs.contains (expected_raw_path config)) then
      { fetchInvoked := fetchInvoked, topicInvoked := false,
        analyzeInvoked := false, termination := PipelineExit.topicInputMissing }
    else
      match topicResult with
      | none =>
        { fetchInvoked := fetchInvoked, topicInvoked := true,
          analyzeInvoked := false, termination := PipelineExit.topicFailed }
      | some q => runAnalyzeStage config (q :: fs) fetchInvoked true
  else
    runAnalyzeStage config fs fetchInvoked false

/-- `main`: step 1 (fetch with cache check and abort on failure), then steps
2 and 3. `fetchResult` abstracts `get_papers.main(config, data_raw_dir)`. -/
def runPipeline (force_rerun : Bool) (config : RunConfig) (fs : List String)
    (fetchResult : Option String) (topicResult : Option String) : Trace :=
  if !force_rerun && fs.contains (expected_raw_path config) then
    runTopicStage force_rerun config fs false topicResult
  else
    match fetchResult with
    | none =>
      { fetchInvoked := true, topicInvoked := false,
        analyzeInvoked := false, termination := PipelineExit.fetchFailed }
    | some p => runTopicStage force_rerun config (p :: fs) true topicResult

/-! ## TopicModeler guard (`src/run_topic_modeling.py`)

`effective_min_topic_size = min_topic_size; if len(docs) <
effective_min_topic_size: effective_min_topic_size = max(2, len(docs) // 2)`
plus a printed warning. -/

structure MinTopicSizeAdjust where
  effective : Nat
  warned : Bool
deriving DecidableEq

/-- The guard in `run_topic_modeling.main` that bounds `min_topic_size` by
the document count. -/
def adjust_min_topic_size (docCount min_topic_size : Nat) : MinTopicSizeAdjust :=
  if docCount < min_topic_size then
    { effective := max 2 (docCount / 2), warned := true }
  else
    { effective := min_topic_size, warned := false }

/-! ## Average rating (`src/get_papers.py`, `get_rich_paper_details`)

`paper['avg_rating'] = round(np.mean(ratings), 2) if ratings else None`.
The collected ratings are integers; the mean and its two-decimal rounding
are modelled exactly over `ℚ`, with Python/NumPy's round-half-to-even tie
rule. -/

/-- Round-half-to-even on `ℚ`, as Python's `round` does on the mean. -/
def round_half_even (q : ℚ) : ℤ :=
  let f := ⌊q⌋
  if q - f < 1 / 2 then f
  else if 1 / 2 < q - f then f + 1
  else if f % 2 = 0 then f else f + 1

/-- `round(x, 2)`: round `100 x` half-to-even, divide by 100. -/
def np_round2 (q : ℚ) : ℚ :=
  (round_half_even (q * 100) : ℚ) / 100

/-- `round(np.mean(ratings), 2) if ratings else None`. -/
def avg_rating (ratings : List Int) : Option ℚ :=
  if ratings.isEmpty then none
  else some (np_round2 ((ratings.map fun r => (r : ℚ)).sum / (ratings.length : ℚ)))

/-! ## Analyzer (`src/analyze.py`, `create_analysis_dataframe`)

A processed-data row is a `Record` (id, decision string, topic id; the other
CSV columns do not enter the aggregation logic under scrutiny).  The pandas
pipeline — outlier filter, `clean_decision`, `groupby('Topic')` counts,
`unstack(fill_value=0)` decision counts, acceptance rate with `.fillna(0)` —
is embedded as list filters and counts per topic id. -/

structure Record where
  id : String
  decision : String
  Topic : Int
deriving DecidableEq

/-- `clean_decision` from `create_analysis_dataframe`: lowercase, then
first-match-wins substring tests in priority order. -/
def clean_decision (decision_str : String) : String :=
  let s := lowerStr decision_str
  if containsSub s "oral" then "Oral"
  else if containsSub s "spotlight" then "Spotlight"
  else if containsSub s "poster" then "Poster"
  else if containsSub s "reject" then "Reject"
  else "N/A"

/-- `df = df_with_topics[df_with_topics['Topic'] != -1]`: the rows that
survive outlier removal. -/
def analysis_records (records : List Record) : List Record :=
  records.filter fun r => !(r.Topic == -1)

/-- The group `groupby('Topic')` forms for topic id `t`. -/
def topic_records (records : List Record) (t : Int) : List Record :=
  (analysis_records records).filter fun r => r.Topic == t

/-- `paper_count=('id', 'count')` for topic `t`. -/
def paper_count (records : List Record) (t : Int) : Nat :=
  (topic_records records t).length

/-- The `unstack(fill_value=0)` count of decision category `d` in topic `t`
(0 when the category never occurs there). -/
def decision_count (records : List Record) (t : Int) (d : String) : Nat :=
  ((topic_records records t).filter fun r => clean_decision r.decision == d).length

/-- `accepted_papers = Oral + Spotlight + Poster` for topic `t`. -/
def accepted_papers (records : List Record) (t : Int) : Nat :=
  decision_count records t "Oral" + decision_count records t "Spotlight" +
    decision_count records t "Poster"

/-- `total_papers_in_scope = accepted + Reject + N/A` for topic `t`. -/
def total_papers_in_scope (records : List Record) (t : Int) : Nat :=
  accepted_papers records t + decision_count records t "Reject" +
    decision_count records t "N/A"

/-- `(accepted_papers / total_papers_in_scope).fillna(0)`: the quotient in
`ℚ`, with the one NaN source (0/0) sent to 0 exactly as `.fillna(0)` does. -/
def acceptance_rate (records : List Record) (t : Int) : ℚ :=
  if total_papers_in_scope records t = 0 then 0
  else (accepted_papers records t : ℚ) / (total_papers_in_scope records t : ℚ)

/-! ## Helper lemmas -/

/-- `clean_decision` lands in one of the five categories. -/
theorem clean_decision_mem_categories (s : String) :
    clean_decision s = "Oral" ∨ clean_decision s = "Spotlight" ∨
    clean_decision s = "Poster" ∨ clean_decision s = "Reject" ∨
    clean_decision s = "N/A" := by
  simp only [clean_decision]
  split_ifs <;> simp

/-- The five decision categories partition any list of records: the five
filtered lengths sum to the length of the list. -/
theorem filter_clean_decision_partition (l : List Record) :
    (l.filter fun r => clean_decision r.decision == "Oral").length +
      (l.filter fun r => clean_decision r.decision == "Spotlight").length +
      (l.filter fun r => clean_decision r.decision == "Poster").length +
      (l.filter fun r => clean_decision r.decision == "Reject").length +
      (l.filter fun r => clean_decision r.decision == "N/A").length = l.length := by
  induction l with
  | nil => simp
  | cons a t ih =>
    rcases clean_decision_mem_categories a.decision with h | h | h | h | h <;>
      simp [List.filter_cons, h] <;> omega

/-- The acceptance-rate denominator is exactly the topic's paper count. -/
theorem total_papers_eq_paper_count (records : List Record) (t : Int) :
    total_papers_in_scope records t = paper_count records t := by
  unfold total_papers_in_scope accepted_papers decision_count paper_count
  have := filter_clean_decision_partition (topic_records records t)
  omega

/-- The accepted papers never exceed the denominator. -/
theorem accepted_le_total (records : List Record) (t : Int) :
    accepted_papers records t ≤ total_papers_in_scope records t := by
  unfold total_papers_in_scope
  omega

/-- Steps 2 and 3 never change the record of whether the fetcher body ran. -/
theorem runTopicStage_fetchInvoked (force_rerun : Bool) (config : RunConfig)
    (fs : List String) (fi : Bool) (topicResult : Option String) :
    (runTopicStage force_rerun config fs fi topicResult).fetchInvoked = fi := by
  unfold runTopicStage runAnalyzeStage
  repeat' split
  all_goals rfl

/-! ## Claims -/

/-- C1, counterexample: with config `conference_id = "ICLR.cc/2024/Conference"`,
`limit = 50`, `fetch_reviews = true`, the planner does NOT produce the
spec's filename `ICLR_cc_2024_Conference_papers_reviews_limit50.jsonl` —
the sanitisation deletes `.` rather than replacing it with `_`. -/
theorem c1_raw_filename_counterexample :
    get_expected_raw_filename c1Config ≠
      "ICLR_cc_2024_Conference_papers_reviews_limit50.jsonl" := by decide

/-- C1 (amended): for the config `{conference_id: "ICLR.cc/2024/Conference",
limit: 50, fetch_reviews: true}` the planner derives the raw filename
`ICLRcc_2024_Conference_papers_reviews_limit50.jsonl`: the conference id is
sanitized by replacing `/` with `_` and deleting `.`, then `_papers` is
appended, then the reviews suffix, then the limit suffix, in that order. -/
theorem c1_raw_filename_amended :
    get_expected_raw_filename c1Config =
      "ICLRcc_2024_Conference_papers_reviews_limit50.jsonl" ∧
    get_expected_raw_filename c1Config =
      "ICLRcc_2024_Conference" ++ "_papers" ++ "_reviews" ++ "_limit50" ++ ".jsonl" ∧
    String.mk
      ((("ICLR.cc/2024/Conference").toList.map fun c => if c == '/' then '_' else c).filter
        fun c => !(c == '.')) = "ICLRcc_2024_Conference" := by
  refine ⟨by decide, by decide, by decide⟩

/-- C2: the fetcher body is invoked exactly when the force-rerun flag is set
or the expected raw path does not exist; in particular, with the flag set
FETCH always runs, and with the flag clear and the raw file present FETCH
always skips. -/
theorem c2_fetch_disposition (force_rerun : Bool) (config : RunConfig)
    (fs : List String) (fetchResult topicResult : Option String) :
    (runPipeline force_rerun config fs fetchResult topicResult).fetchInvoked =
      (force_rerun || !(fs.contains (expected_raw_path config))) := by
  cases force_rerun <;> by_cases h : expected_raw_path config ∈ fs <;>
    cases fetchResult <;>
      simp [runPipeline, h, runTopicStage_fetchInvoked]

/-- C3: whenever the FETCH stage actually runs (the skip condition is false)
and the fetcher returns no output, the run terminates with
`PipelineExit.fetchFailed`: the topic-modeling body and the analysis body are
never invoked, and the model's totality reflects the source's clean
`print` + `return` exit (no exception propagates). -/
theorem c3_fetch_failure_aborts (force_rerun : Bool) (config : RunConfig)
    (fs : List String) (topicResult : Option String)
    (hrun : (!force_rerun && fs.contains (expected_raw_path config)) = false) :
    runPipeline force_rerun config fs none topicResult =
      { fetchInvoked := true, topicInvoked := false,
        analyzeInvoked := false, termination := PipelineExit.fetchFailed } := by
  unfold runPipeline
  rw [hrun]
  simp

/-- C3 witness: a concrete force-rerun run whose fetcher fails. -/
theorem c3_fetch_failure_aborts_witness :
    runPipeline true c1Config [] none none =
      { fetchInvoked := true, topicInvoked := false,
        analyzeInvoked := false, termination := PipelineExit.fetchFailed } :=
  c3_fetch_failure_aborts true c1Config [] none (by decide)

/-- C7: if the document count is strictly below the configured
`min_topic_size`, the effective size is `max 2 (docCount / 2)` and a warning
is emitted instead of failing; otherwise the configured value is used
unchanged; in particular 10 documents with configured size 30 give 5. -/
theorem c7_min_topic_size_guard : ∀ docCount min_topic_size : Nat,
    (docCount < min_topic_size →
      adjust_min_topic_size docCount min_topic_size =
        { effective := max 2 (docCount / 2), warned := true }) ∧
    (¬ docCount < min_topic_size →
      adjust_min_topic_size docCount min_topic_size =
        { effective := min_topic_size, warned := false }) ∧
    adjust_min_topic_size 10 30 = { effective := 5, warned := true } := by
  intro n m
  refine ⟨fun h => ?_, fun h => ?_, by decide⟩
  · simp [adjust_min_topic_size, h]
  · simp [adjust_min_topic_size, h]

/-- C7 witness: the 10-documents / configured-30 scenario. -/
theorem c7_min_topic_size_guard_witness :
    adjust_min_topic_size 10 30 =
      { effective := max 2 (10 / 2), warned := true } :=
  (c7_min_topic_size_guard 10 30).1 (by decide)

/-- C5: records with `Topic = -1` are dropped before aggregation: topic id
`-1` never appears among the analysed records, its group is empty, and it
contributes to no per-topic count. -/
theorem c5_outlier_exclusion (records : List Record) :
    (-1 : Int) ∉ (analysis_records records).map (fun r => r.Topic) ∧
    topic_records records (-1) = [] ∧
    paper_count records (-1) = 0 ∧
    ∀ d : String, decision_count records (-1) d = 0 := by
  have h2 : topic_records records (-1) = [] := by
    apply List.filter_eq_nil_iff.mpr
    intro r hr
    rcases List.mem_filter.mp hr with ⟨_, hp⟩
    simp at hp ⊢
    exact hp
  refine ⟨?_, h2, by simp [paper_count, h2], fun d => by simp [decision_count, h2]⟩
  intro hmem
  rcases List.mem_map.mp hmem with ⟨r, hr, hTopic⟩
  rcases List.mem_filter.mp hr with ⟨_, hp⟩
  simp [hTopic] at hp

/-- C6: `clean_decision` maps every decision string to exactly one of the
five categories by case-insensitive substring match in the priority order
Oral, Spotlight, Poster, Reject, with unmatched strings sent to `N/A`; in
particular `"Oral (Reject appeal overturned)"` classifies as `"Oral"`. -/
theorem c6_clean_decision_priority : ∀ s : String,
    (containsSub (lowerStr s) "oral" = true → clean_decision s = "Oral") ∧
    (containsSub (lowerStr s) "oral" = false →
      containsSub (lowerStr s) "spotlight" = true → clean_decision s = "Spotlight") ∧
    (containsSub (lowerStr s) "oral" = false →
      containsSub (lowerStr s) "spotlight" = false →
      containsSub (lowerStr s) "poster" = true → clean_decision s = "Poster") ∧
    (containsSub (lowerStr s) "oral" = false →
      containsSub (lowerStr s) "spotlight" = false →
      containsSub (lowerStr s) "poster" = false →
      containsSub (lowerStr s) "reject" = true → clean_decision s = "Reject") ∧
    (containsSub (lowerStr s) "oral" = false →
      containsSub (lowerStr s) "spotlight" = false →
      containsSub (lowerStr s) "poster" = false →
      containsSub (lowerStr s) "reject" = false → clean_decision s = "N/A") ∧
    (clean_decision s = "Oral" ∨ clean_decision s = "Spotlight" ∨
      clean_decision s = "Poster" ∨ clean_decision s = "Reject" ∨
      clean_decision s = "N/A") ∧
    clean_decision "Oral (Reject appeal overturned)" = "Oral" := by
  intro s
  refine ⟨fun h1 => by simp [clean_decision, h1],
    fun h1 h2 => by simp [clean_decision, h1, h2],
    fun h1 h2 h3 => by simp [clean_decision, h1, h2, h3],
    fun h1 h2 h3 h4 => by simp [clean_decision, h1, h2, h3, h4],
    fun h1 h2 h3 h4 => by simp [clean_decision, h1, h2, h3, h4],
    ?_, by decide⟩
  simp only [clean_decision]
  split_ifs <;> simp

/-- C6 witness: the literal scenario input, discharging the priority
hypothesis concretely. -/
theorem c6_clean_decision_priority_witness :
    clean_decision "Oral (Reject appeal overturned)" = "Oral" :=
  (c6_clean_decision_priority "Oral (Reject appeal overturned)").1 (by decide)

/-- C8: for a non-empty ratings list, `avg_rating` is the arithmetic mean
rounded to two decimal places (`[6, 8, 7]` gives `7.0`); for an empty list
it is `none`, not zero. -/
theorem c8_avg_rating_spec :
    (∀ ratings : List Int, ratings ≠ [] →
      avg_rating ratings =
        some (np_round2 ((ratings.map fun r => (r : ℚ)).sum / (ratings.length : ℚ)))) ∧
    avg_rating [6, 8, 7] = some 7 ∧
    avg_rating [] = none := by
  refine ⟨fun l hl => by simp [avg_rating, hl], ?_, by simp [avg_rating]⟩
  simp only [avg_rating, np_round2, round_half_even]
  norm_num

/-- C8 witness: the `[6, 8, 7]` scenario instantiating the non-emptiness
hypothesis. -/
theorem c8_avg_rating_spec_witness :
    avg_rating [6, 8, 7] =
      some (np_round2 ((([6, 8, 7] : List Int).map fun r => (r : ℚ)).sum /
        (([6, 8, 7] : List Int).length : ℚ))) :=
  c8_avg_rating_spec.1 [6, 8, 7] (by decide)

/-- C9: the invitation query is attempted first and its papers are returned
untouched when non-empty (the venue query never matters then); the venue
fallback is consulted exactly when the invitation strategy yields nothing
(empty result or caught exception); when both yield nothing the fetch
returns `[]`, `get_papers.main` returns `none`, and the orchestrator ends
the run at `fetchFailed` — a clean `return`, not a crash. -/
theorem c9_fetch_fallback (config : RunConfig)
    (invitationResult venueResult : Except Unit (List Paper))
    (force_rerun : Bool) (fs : List String) (topicResult : Option String) :
    (∀ ps : List Paper, ps ≠ [] →
      get_all_papers (Except.ok ps) venueResult = ps) ∧
    (strategy_papers invitationResult = [] →
      strategy_papers venueResult ≠ [] →
      get_all_papers invitationResult venueResult = strategy_papers venueResult) ∧
    (strategy_papers invitationResult = [] →
      strategy_papers venueResult = [] →
      get_all_papers invitationResult venueResult = [] ∧
      get_papers_main config invitationResult venueResult = none) ∧
    (get_papers_main config invitationResult venueResult = none →
      (!force_rerun && fs.contains (expected_raw_path config)) = false →
      runPipeline force_rerun config fs
          (get_papers_main config invitationResult venueResult) topicResult =
        { fetchInvoked := true, topicInvoked := false,
          analyzeInvoked := false, termination := PipelineExit.fetchFailed }) := by
  refine ⟨fun ps hps => by simp [get_all_papers, strategy_papers, hps],
    fun h1 h2 => by simp [get_all_papers, h1, h2],
    fun h1 h2 => ?_, fun hnone hrun => ?_⟩
  · have hall : get_all_papers invitationResult venueResult = [] := by
      simp [get_all_papers, h1, h2]
    exact ⟨hall, by simp [get_papers_main, hall]⟩
  · rw [hnone]
    unfold runPipeline
    rw [hrun]
    simp

/-- C9 witness: concrete strategies exercising primary success, fallback
success, double failure, and the resulting clean pipeline abort. -/
theorem c9_fetch_fallback_witness :
    get_all_papers (Except.ok [{ id := "p1" }]) (Except.error ()) = [{ id := "p1" }] ∧
    get_all_papers (Except.error ()) (Except.ok [{ id := "p2" }]) = [{ id := "p2" }] ∧
    get_papers_main c1Config (Except.error ()) (Except.error ()) = none ∧
    runPipeline true c1Config []
        (get_papers_main c1Config (Except.error ()) (Except.error ())) none =
      { fetchInvoked := true, topicInvoked := false,
        analyzeInvoked := false, termination := PipelineExit.fetchFailed } := by
  refine ⟨(c9_fetch_fallback c1Config (Except.ok [{ id := "p1" }]) (Except.error ())
      true [] none).1 [{ id := "p1" }] (by decide), ?_, ?_, ?_⟩
  · exact (c9_fetch_fallback c1Config (Except.error ()) (Except.ok [{ id := "p2" }])
      true [] none).2.1 (by decide) (by decide)
  · exact ((c9_fetch_fallback c1Config (Except.error ()) (Except.error ())
      true [] none).2.2.1 (by decide) (by decide)).2
  · exact (c9_fetch_fallback c1Config (Except.error ()) (Except.error ())
      true [] none).2.2.2 (by decide) (by decide)

/-- The topic stage cannot abort for a missing raw input when the raw path
is present in the filesystem it runs against. -/
theorem runTopicStage_no_input_missing (force_rerun : Bool) (config : RunConfig)
    (fs : List String) (fi : Bool) (topicResult : Option String)
    (h : fs.contains (expected_raw_path config) = true) :
    (runTopicStage force_rerun config fs fi topicResult).termination ≠
      PipelineExit.topicInputMissing := by
  unfold runTopicStage runAnalyzeStage
  repeat' split
  all_goals simp_all

/-- C10: the raw filename built inside `get_papers.main` is byte-identical
to the raw filename pre-computed by `get_expected_filepaths` for every
config (the duplicated sanitisation and suffix logic agree), so a pipeline
whose fetch stage returns its output path can never abort with
`topicInputMissing`. -/
theorem c10_path_agreement :
    (∀ config : RunConfig,
      fetcher_output_filename config = get_expected_raw_filename config) ∧
    ∀ (force_rerun : Bool) (config : RunConfig) (fs : List String)
      (topicResult : Option String),
      (runPipeline force_rerun config fs
          (some ("data/raw/" ++ fetcher_output_filename config))
          topicResult).termination ≠
        PipelineExit.topicInputMissing := by
  refine ⟨fun config => rfl, ?_⟩
  intro force_rerun config fs topicResult
  have hpath : "data/raw/" ++ fetcher_output_filename config =
      expected_raw_path config := rfl
  rw [hpath]
  unfold runPipeline
  by_cases h : (!force_rerun && fs.contains (expected_raw_path config)) = true
  · rw [if_pos h]
    refine runTopicStage_no_input_missing _ _ _ _ _ ?_
    simp only [Bool.and_eq_true] at h
    exact h.2
  · rw [if_neg h]
    exact runTopicStage_no_input_missing _ _ _ _ _ (by simp)

/-- Records used to exercise the analyzer claims on concrete data. -/
def c4Records : List Record :=
  [ { id := "a", decision := "Accept (Oral)", Topic := 0 },
    { id := "b", decision := "Reject", Topic := 0 },
    { id := "c", decision := "Accept (Poster)", Topic := 1 },
    { id := "d", decision := "meta review pending", Topic := -1 } ]

/-- C4: every per-topic aggregate satisfies: the acceptance-rate denominator
equals the topic's post-outlier paper count; the rate lies in `[0, 1]`; a
zero denominator yields rate exactly `0` (the `fillna(0)` branch, no NaN and
no error); and otherwise the rate is
`(Oral + Spotlight + Poster) / (Oral + Spotlight + Poster + Reject + N/A)`. -/
theorem c4_acceptance_rate_spec (records : List Record) (t : Int) :
    total_papers_in_scope records t = paper_count records t ∧
    0 ≤ acceptance_rate records t ∧
    acceptance_rate records t ≤ 1 ∧
    (total_papers_in_scope records t = 0 → acceptance_rate records t = 0) ∧
    (total_papers_in_scope records t ≠ 0 →
      acceptance_rate records t =
        (accepted_papers records t : ℚ) / (total_papers_in_scope records t : ℚ)) := by
  refine ⟨total_papers_eq_paper_count records t, ?_, ?_,
    fun h => by simp [acceptance_rate, h], fun h => by simp [acceptance_rate, h]⟩
  · unfold acceptance_rate
    split_ifs with h
    · norm_num
    · positivity
  · unfold acceptance_rate
    split_ifs with h
    · norm_num
    · apply div_le_one_of_le₀
      · exact_mod_cast accepted_le_total records t
      · positivity

/-- C4 witness: a topic with an empty group (rate 0) and a topic with one
accepted and one rejected paper (rate `accepted / total`). -/
theorem c4_acceptance_rate_spec_witness :
    acceptance_rate c4Records 5 = 0 ∧
    acceptance_rate c4Records 0 =
      (accepted_papers c4Records 0 : ℚ) / (total_papers_in_scope c4Records 0 : ℚ) :=
  ⟨(c4_acceptance_rate_spec c4Records 5).2.2.2.1 (by decide),
   (c4_acceptance_rate_spec c4Records 0).2.2.2.2 (by decide)⟩
